import Mathlib

/-!
# Verification of `log.py` (netlog)

A shallow embedding of the netlog measurement-and-shipping engine
(`log.py`): the `Metrics` sample container, the wire serialization, the
four probe functions, the transport sender and one iteration of the
scheduling loop.  External effects (socket connects, TLS handshakes, HTTP
responses, the ping subprocess, wall-clock readings) are modelled as
explicit inputs; Python exceptions that escape a function are modelled
with `Except PyError`.
-/

namespace Netlog

/-- A sample value as it is stored in the metrics list: Python ints,
floats (modelled as rationals) and strings.  The ping probe stores the
raw matched substrings, so the string case is genuinely reachable. -/
inductive Value where
  | int : Int → Value
  | num : ℚ → Value
  | str : String → Value
deriving DecidableEq

/-- Embeds the `Metrics` class (log.py lines 55-78): a list of
`(name, (epoch_seconds, value))` entries.  Timestamps are the result of
`(time - datetime(1970,1,1)).total_seconds()`, modelled directly as a
rational number of seconds since the epoch. -/
structure Metrics where
  metrics : List (String × (ℚ × Value))
deriving DecidableEq

/-- `Metrics.Add` (lines 59-62): append one `(param, (seconds, value))`
entry. -/
def Metrics.Add (m : Metrics) (param : String) (value : Value) (t : ℚ) : Metrics :=
  ⟨m.metrics ++ [(param, (t, value))]⟩

/-- `Metrics.__add__` (lines 64-65): concatenation of the entry lists. -/
def Metrics.add (a b : Metrics) : Metrics :=
  ⟨a.metrics ++ b.metrics⟩

instance : Add Metrics := ⟨Metrics.add⟩

theorem Metrics.add_def (a b : Metrics) : a + b = ⟨a.metrics ++ b.metrics⟩ := rfl

/-- The string `"".join("%s." % p for p in parts)` built inside
`Metrics.Prefixed` (line 76): each part followed by a dot. -/
def joinParts : List String → String
  | [] => ""
  | p :: rest => p ++ "." ++ joinParts rest

/-- `Metrics.Prefixed` (lines 75-78): prepend the joined parts (each with
a trailing dot) to every entry name; timestamps and values untouched. -/
def Metrics.Prefixed (m : Metrics) (parts : List String) : Metrics :=
  ⟨m.metrics.map (fun e => (joinParts parts ++ e.1, e.2))⟩

/-- Models the external library call `pickle.dumps(self.metrics, protocol=2)`
(line 71).  The exact pickle byte format belongs to the Python standard
library, not to this repository; the claims under verification constrain
only the framing wrapped around the payload, so any fixed computable
serialization of the entry list stands in for it here.  Bytes are
modelled as natural numbers. -/
def encodeValue : Value → String
  | .int n => "I" ++ toString n
  | .num q => "F" ++ toString q.num ++ "/" ++ toString q.den
  | .str s => "S" ++ toString s.length ++ ":" ++ s

def encodeEntry (e : String × (ℚ × Value)) : String :=
  "(" ++ toString e.1.length ++ ":" ++ e.1 ++ "," ++
    toString e.2.1.num ++ "/" ++ toString e.2.1.den ++ "," ++
    encodeValue e.2.2 ++ ")"

def pickleDumps (entries : List (String × (ℚ × Value))) : List Nat :=
  (String.join (entries.map encodeEntry)).data.map Char.toNat

/-- Models `struct.pack("!L", n)` (line 72): the 4-byte big-endian
unsigned encoding of `n`, defined for `n < 4294967296` (Python raises
`struct.error` outside that range, modelled as `none`). -/
def structPackL (n : Nat) : Option (List Nat) :=
  if n < 4294967296 then
    some [n / 16777216 % 256, n / 65536 % 256, n / 256 % 256, n % 256]
  else none

/-- `Metrics.Serialize` (lines 70-73): `header + payload` where `payload`
is the pickled entry list and `header` is `struct.pack("!L", len(payload))`. -/
def Metrics.Serialize (m : Metrics) : Option (List Nat) :=
  let payload := pickleDumps m.metrics
  (structPackL payload.length).map (fun header => header ++ payload)

/-- Python exceptions that escape an embedded function. -/
inductive PyError where
  | nameError : String → PyError
  | attributeError : String → PyError
  | socketError : PyError
  | structError : PyError
deriving DecidableEq

/-- Outcome of the transport-level effects inside `SendMetrics`:
`socket.create_connection` and `sock.sendall` either both succeed, or one
of them raises `socket.error`. -/
inductive SendResult where
  | ok
  | connectionFailure
  | writeFailure
deriving DecidableEq

/-- `SendMetrics` (lines 81-88): serialize, connect, send.  There is no
`try` in this function: a failing connect or write raises out of it. -/
def SendMetrics (metrics : Metrics) (send : SendResult) : Except PyError Unit :=
  match metrics.Serialize with
  | none => .error .structError
  | some _ =>
    match send with
    | .ok => .ok ()
    | .connectionFailure => .error .socketError
    | .writeFailure => .error .socketError

/-- Outcome of `socket.create_connection` in the socket probe. -/
inductive ConnectResult where
  | success
  | timeout
  | error
deriving DecidableEq

/-- Outcome of `ssl.wrap_socket`: a handshake object whose peer
certificate has the given byte length, or an `ssl.SSLError`. -/
inductive SslResult where
  | success : Nat → SslResult
  | sslError : SslResult
deriving DecidableEq

/-- External-world inputs of one `GatherServerSocketMetrics` call: the
connect outcome, the elapsed seconds observed at each `utcnow()` reading,
the handshake outcome, and the start instant. -/
structure SocketWorld where
  connect : ConnectResult
  connectElapsed : ℚ
  sslElapsed : ℚ
  ssl : SslResult
  start : ℚ
deriving DecidableEq

/-- `GatherServerSocketMetrics` (lines 91-117).  On connect timeout or
failure the corresponding single sample is returned at once.  On success
`connect_time` is recorded; with `do_ssl`, a successful handshake records
`ssl_handshake_time` and `ssl_cert_length`, while a failed handshake is
swallowed by `except ssl.SSLError: pass` — but line 115 then reads the
local `ssl_sock`, which was never bound, so Python raises
`UnboundLocalError` (a `NameError`), modelled as `.error (.nameError
"ssl_sock")`.  The `ssl_handshake_time` entry added just before is lost
with the metrics object. -/
def GatherServerSocketMetrics (server : String × String) (port : Nat)
    (do_ssl : Bool) (w : SocketWorld) : Except PyError Metrics :=
  let metrics : Metrics := ⟨[]⟩
  match w.connect with
  | .timeout =>
    .ok ((metrics.Add "timeout" (.int 1) w.start).Prefixed [server.1, toString port])
  | .error =>
    .ok ((metrics.Add "errors" (.int 1) w.start).Prefixed [server.1, toString port])
  | .success =>
    let metrics := metrics.Add "connect_time" (.num w.connectElapsed) w.start
    if do_ssl then
      match w.ssl with
      | .success certLen =>
        let metrics := metrics.Add "ssl_handshake_time" (.num w.sslElapsed) w.start
        let metrics := metrics.Add "ssl_cert_length" (.int certLen) w.start
        .ok (metrics.Prefixed [server.1, toString port])
      | .sslError =>
        let _metrics := metrics.Add "ssl_handshake_time" (.num w.sslElapsed) w.start
        .error (.nameError "ssl_sock")
    else
      .ok (metrics.Prefixed [server.1, toString port])

/-- Outcome of `urllib2.urlopen` in the HTTP probe: a readable response,
an `HTTPError` (also readable), a `URLError` whose reason is a
`socket.timeout`, or any other `URLError`.  Bodies are byte lists. -/
inductive HttpOutcome where
  | response : Nat → List Nat → HttpOutcome
  | httpError : Nat → List Nat → HttpOutcome
  | urlErrorTimeout
  | urlErrorOther
deriving DecidableEq

/-- External-world inputs of one `GatherServerHttpMetrics` call. -/
structure HttpWorld where
  outcome : HttpOutcome
  start : ℚ
  firstElapsed : ℚ
  lastElapsed : ℚ
deriving DecidableEq

/-- The shared tail of the HTTP probe (lines 148-156): read one byte,
record `time_to_first_byte`, read the rest, record `time_to_last_byte`,
then `code` and `size`. -/
def httpReadPath (metrics : Metrics) (server : String × String)
    (schema : String) (code : Nat) (body : List Nat) (w : HttpWorld) : Metrics :=
  let size := (body.take 1).length
  let metrics := metrics.Add "time_to_first_byte" (.num w.firstElapsed) w.start
  let size := size + (body.drop 1).length
  let metrics := metrics.Add "time_to_last_byte" (.num w.lastElapsed) w.start
  let metrics := metrics.Add "code" (.int code) w.start
  let metrics := metrics.Add "size" (.int size) w.start
  metrics.Prefixed [server.1, schema]

/-- `GatherServerHttpMetrics` (lines 120-156).  An `HTTPError` records
`errors=1` and is then read like a response.  A `URLError` records
`errors=1` first (line 138 is skipped, line 140 runs); a timeout reason
then adds `timeout=1`, any other reason adds `errors=1` a second time
(line 145) — both return at once. -/
def GatherServerHttpMetrics (server : String × String) (schema : String)
    (w : HttpWorld) : Metrics :=
  let metrics : Metrics := ⟨[]⟩
  match w.outcome with
  | .response code body =>
    httpReadPath metrics server schema code body w
  | .httpError code body =>
    httpReadPath (metrics.Add "errors" (.int 1) w.start) server schema code body w
  | .urlErrorTimeout =>
    ((metrics.Add "errors" (.int 1) w.start).Add "timeout" (.int 1) w.start).Prefixed
      [server.1, schema]
  | .urlErrorOther =>
    ((metrics.Add "errors" (.int 1) w.start).Add "errors" (.int 1) w.start).Prefixed
      [server.1, schema]

/-- Characters matched by the regex class `[\d.]`. -/
def numChar (c : Char) : Bool := c.isDigit || c = '.'

/-- Match a literal character sequence at the head of the input,
returning the remainder on success. -/
def dropLit : List Char → List Char → Option (List Char)
  | [], rest => some rest
  | _ :: _, [] => none
  | l :: ls, r :: rs => if l = r then dropLit ls rs else none

/-- Attempt the pattern
`rtt min/avg/max/mdev = ([\d.]*)/([\d.]*)/([\d.]*)/([\d.]*) ms`
anchored at the head of the input.  Because `/` and a space are outside
the class `[\d.]`, the greedy star never backtracks: taking the maximal
run of `[\d.]` characters and then requiring the literal is exactly the
regex semantics. -/
def matchRttAt (cs : List Char) : Option (String × String × String × String) := do
  let r1 ← dropLit "rtt min/avg/max/mdev = ".data cs
  let (ga, r2) := r1.span numChar
  let r3 ← dropLit ['/'] r2
  let (gb, r4) := r3.span numChar
  let r5 ← dropLit ['/'] r4
  let (gc, r6) := r5.span numChar
  let r7 ← dropLit ['/'] r6
  let (gd, r8) := r7.span numChar
  let _ ← dropLit " ms".data r8
  pure (⟨ga⟩, ⟨gb⟩, ⟨gc⟩, ⟨gd⟩)

/-- `re.search` of the rtt pattern (lines 173-175): try every start
position left to right, returning the named groups
`(min, avg, max, mdev)` of the first match, or `none`. -/
def reSearchRtt : List Char → Option (String × String × String × String)
  | [] => matchRttAt []
  | c :: rest =>
    match matchRttAt (c :: rest) with
    | some r => some r
    | none => reSearchRtt rest

/-- External-world inputs of one `GatherPingMetrics` call: the exit code
and stdout of the `ping` subprocess, and the start instant.  A non-zero
exit code makes `subprocess.check_output` raise `CalledProcessError`. -/
structure PingWorld where
  exitCode : Nat
  output : String
  start : ℚ
deriving DecidableEq

/-- `GatherPingMetrics` (lines 158-178).  Exit code 1 records
`timeout=1`, any other non-zero exit records `errors=1`.  On exit 0 the
rtt summary line is searched for; if it is absent, `re.search` returns
`None` and line 176 calls `.groupdict()` on it, raising
`AttributeError`, modelled as `.error (.attributeError "groupdict")`.
On a match, the four named groups are recorded with their *matched
substrings* as values (the code never converts them with `float`).  The
iteration order of the CPython dict returned by `groupdict()` is an
implementation detail; it is modelled here in group-definition order
`min, avg, max, mdev`. -/
def GatherPingMetrics (server : String × String) (w : PingWorld) :
    Except PyError Metrics :=
  let metrics : Metrics := ⟨[]⟩
  if w.exitCode ≠ 0 then
    if w.exitCode = 1 then
      .ok ((metrics.Add "timeout" (.int 1) w.start).Prefixed [server.1, "ping"])
    else
      .ok ((metrics.Add "errors" (.int 1) w.start).Prefixed [server.1, "ping"])
  else
    match reSearchRtt w.output.data with
    | none => .error (.attributeError "groupdict")
    | some (ga, gb, gc, gd) =>
      let metrics := metrics.Add "min" (.str ga) w.start
      let metrics := metrics.Add "avg" (.str gb) w.start
      let metrics := metrics.Add "max" (.str gc) w.start
      let metrics := metrics.Add "mdev" (.str gd) w.start
      .ok (metrics.Prefixed [server.1, "ping"])

/-- One iteration of `MainLoop` (lines 207-218), from `next_time =
last_time + period` to the final `last_time = next_time`.  Inputs: the
period, the current `last_time` baseline, the cycle's gathered and
prefixed metrics together with the transport outcome (the body of
`LoopOnce`), and the `utcnow()` reading taken after the cycle.  On
success it returns `(new last_time, sleep duration if any, overrun
logged?)`.  There is no `try` anywhere in `MainLoop`, `LoopOnce` or
`SendMetrics`, so an exception from the send propagates out as
`.error`. -/
def MainLoopIter (period last_time : ℚ) (cycleMetrics : Metrics)
    (send : SendResult) (now : ℚ) : Except PyError (ℚ × Option ℚ × Bool) :=
  let next_time := last_time + period
  match SendMetrics cycleMetrics send with
  | .error e => .error e
  | .ok _ =>
    if now < next_time then
      .ok (next_time, some (next_time - now), false)
    else
      .ok (next_time, none, true)

/-- `true` when the embedded Python call ends in an uncaught exception. -/
def raisesOut {α : Type} : Except PyError α → Bool
  | .error _ => true
  | .ok _ => false

/-! ## Helper lemmas -/

theorem strAppend_assoc (a b c : String) : a ++ b ++ c = a ++ (b ++ c) := by
  apply String.ext
  simp only [String.data_append, List.append_assoc]

theorem joinParts_append (ps qs : List String) (s : String) :
    joinParts (ps ++ qs) ++ s = joinParts ps ++ (joinParts qs ++ s) := by
  induction ps with
  | nil => simp [joinParts, String.empty_append]
  | cons p ps ih => simp only [List.cons_append, List.append_eq, joinParts, strAppend_assoc, ih]

/-! ## Claims -/

/-- Claim C9: `Prefixed(p1, p2)` renames a sample `"x"` to `"p1.p2.x"`
(the parts joined by a dot, with a trailing dot, prepended), leaving
timestamps and values unchanged, and applying `Prefixed` twice composes
left-to-right: the outer call's parts end up in front, so
`(m.Prefixed ps).Prefixed qs = m.Prefixed (qs ++ ps)`. -/
theorem prefixed_rename_and_composition (p1 p2 : String) (m : Metrics) :
    (m.Prefixed [p1, p2]).metrics
        = m.metrics.map (fun e => (p1 ++ "." ++ p2 ++ "." ++ e.1, e.2))
      ∧ ∀ ps qs : List String,
        (m.Prefixed ps).Prefixed qs = m.Prefixed (qs ++ ps) := by
  constructor
  · simp only [Metrics.Prefixed, joinParts, String.append_empty, strAppend_assoc]
  · intro ps qs
    simp only [Metrics.Prefixed, List.map_map, Metrics.mk.injEq]
    apply List.map_congr_left
    intro e _
    simp only [Function.comp_apply, joinParts_append]

/-- Claim C10: prefixing distributes over merge — for all metric sets
`a`, `b` and any part list `ps`,
`(a + b).Prefixed ps = a.Prefixed ps + b.Prefixed ps` as the same
sequence of entries. -/
theorem prefixed_distributes_over_add (a b : Metrics) (ps : List String) :
    (a + b).Prefixed ps = (a.Prefixed ps) + (b.Prefixed ps) := by
  simp only [Metrics.add_def, Metrics.Prefixed, List.map_append]

/-- Claim C8: `Serialize` produces `header ++ payload`, where `payload`
is the serialization of the `(name, (timestamp, value))` entry list and
`header` is exactly the 4-byte big-endian unsigned encoding of the
payload's byte length (each header byte below 256, and the big-endian
value of the four bytes equal to the length). -/
theorem serialize_is_length_prefixed (m : Metrics)
    (h : (pickleDumps m.metrics).length < 4294967296) :
    ∃ header : List Nat,
      m.Serialize = some (header ++ pickleDumps m.metrics) ∧
      header.length = 4 ∧
      (∀ b ∈ header, b < 256) ∧
      header.foldl (fun acc b => acc * 256 + b) 0 = (pickleDumps m.metrics).length := by
  refine ⟨[(pickleDumps m.metrics).length / 16777216 % 256,
           (pickleDumps m.metrics).length / 65536 % 256,
           (pickleDumps m.metrics).length / 256 % 256,
           (pickleDumps m.metrics).length % 256], ?_, rfl, ?_, ?_⟩
  · simp only [Metrics.Serialize, structPackL, if_pos h, Option.map_some']
  · intro b hb
    simp only [List.mem_cons, List.not_mem_nil, or_false] at hb
    rcases hb with hb | hb | hb | hb <;> omega
  · simp only [List.foldl]
    omega

theorem serialize_is_length_prefixed_witness :
    (pickleDumps (Metrics.mk []).metrics).length < 4294967296 ∧
    ∃ header : List Nat,
      (Metrics.mk []).Serialize = some (header ++ pickleDumps (Metrics.mk []).metrics) ∧
      header.length = 4 ∧
      (∀ b ∈ header, b < 256) ∧
      header.foldl (fun acc b => acc * 256 + b) 0
        = (pickleDumps (Metrics.mk []).metrics).length :=
  ⟨by decide, serialize_is_length_prefixed ⟨[]⟩ (by decide)⟩

/-- Claim C6: for every scheduler iteration (with a successful cycle),
the next cycle's baseline is the originally scheduled tick
`last_time + period`, not the actual completion time `now`; if the cycle
completes before the tick the scheduler sleeps for the remaining
interval `last_time + period - now`, otherwise it logs an overrun and
proceeds immediately (no sleep). -/
theorem mainLoop_next_baseline (period last_time now : ℚ) (m : Metrics)
    (h : (pickleDumps m.metrics).length < 4294967296) :
    MainLoopIter period last_time m .ok now =
      if now < last_time + period then
        .ok (last_time + period, some (last_time + period - now), false)
      else
        .ok (last_time + period, none, true) := by
  simp only [MainLoopIter, SendMetrics, Metrics.Serialize, structPackL, if_pos h,
    Option.map_some']

theorem mainLoop_next_baseline_witness :
    (pickleDumps (Metrics.mk []).metrics).length < 4294967296 ∧
    MainLoopIter 60 0 (Metrics.mk []) .ok 30 =
      if (30 : ℚ) < 0 + 60 then
        .ok ((0 : ℚ) + 60, some ((0 : ℚ) + 60 - 30), false)
      else
        .ok ((0 : ℚ) + 60, none, true) :=
  ⟨by decide, mainLoop_next_baseline 60 0 30 ⟨[]⟩ (by decide)⟩

/-- Claim C1 counterexample: at a concrete iteration in which the
connection to the collector cannot be established, the scheduling loop's
iteration does not continue to the next cycle — the `socket.error`
escapes the loop uncaught (the claim says the scheduler catches it and
continues). -/
theorem mainLoop_send_failure_counterexample :
    MainLoopIter 60 0 (Metrics.mk []) .connectionFailure 30
        = .error .socketError ∧
    raisesOut (MainLoopIter 60 0 (Metrics.mk []) .connectionFailure 30) = true :=
  ⟨rfl, rfl⟩

/-- Claim C1 (amended): neither `SendMetrics`, `LoopOnce` nor `MainLoop`
contains any exception handler, so whenever the send fails (connection
cannot be established, or the write fails partway) the exception
propagates uncaught out of the scheduling loop's iteration and the
process terminates — the scheduler does not catch, log, or continue. -/
theorem mainLoop_send_failure_escapes (period last_time now : ℚ) (m : Metrics)
    (send : SendResult) (h : send ≠ .ok) :
    raisesOut (MainLoopIter period last_time m send now) = true := by
  cases send with
  | ok => exact absurd rfl h
  | connectionFailure =>
    cases hs : m.Serialize <;>
      simp only [MainLoopIter, SendMetrics, hs, raisesOut]
  | writeFailure =>
    cases hs : m.Serialize <;>
      simp only [MainLoopIter, SendMetrics, hs, raisesOut]

theorem mainLoop_send_failure_escapes_witness :
    SendResult.writeFailure ≠ SendResult.ok ∧
    raisesOut (MainLoopIter 60 0 (Metrics.mk []) .writeFailure 30) = true :=
  ⟨by decide, mainLoop_send_failure_escapes 60 0 30 ⟨[]⟩ .writeFailure (by decide)⟩

/-- Claim C7: a TCP-connect probe whose connection attempt fails returns
exactly one sample — `<server>.<port>.timeout` with value 1 on timeout,
`<server>.<port>.errors` with value 1 on any other connection failure —
with no `connect_time` sample, and returns normally. -/
theorem socket_failure_single_sample (server : String × String) (port : Nat)
    (do_ssl : Bool) (w : SocketWorld) :
    (w.connect = .timeout →
      GatherServerSocketMetrics server port do_ssl w =
        .ok ⟨[(server.1 ++ "." ++ toString port ++ "." ++ "timeout",
               (w.start, .int 1))]⟩) ∧
    (w.connect = .error →
      GatherServerSocketMetrics server port do_ssl w =
        .ok ⟨[(server.1 ++ "." ++ toString port ++ "." ++ "errors",
               (w.start, .int 1))]⟩) := by
  constructor <;> intro hc <;>
    simp only [GatherServerSocketMetrics, hc, Metrics.Add, Metrics.Prefixed,
      joinParts, List.nil_append, List.map_cons, List.map_nil,
      String.append_empty, strAppend_assoc]

theorem socket_failure_single_sample_witness :
    SocketWorld.connect ⟨.timeout, 0, 0, .sslError, 7⟩ = .timeout ∧
    GatherServerSocketMetrics ("srv", "host") 80 false ⟨.timeout, 0, 0, .sslError, 7⟩ =
      .ok ⟨[("srv" ++ "." ++ toString 80 ++ "." ++ "timeout", ((7 : ℚ), .int 1))]⟩ :=
  ⟨rfl, (socket_failure_single_sample ("srv", "host") 80 false
    ⟨.timeout, 0, 0, .sslError, 7⟩).1 rfl⟩

/-- Claim C2 (code bug): when the TCP connection succeeds but the TLS
handshake fails, the probe does not return normally.  The
`except ssl.SSLError: pass` swallows the handshake error and
`ssl_handshake_time` is recorded, but the very next line reads the local
`ssl_sock` that was never bound, so the probe raises an uncaught
`UnboundLocalError` (`NameError` on `ssl_sock`) instead of returning a
sample set — evaluated here at a concrete failing input. -/
theorem ssl_handshake_failure_raises :
    GatherServerSocketMetrics ("srv", "host") 443 true
        ⟨.success, 0, 0, .sslError, 0⟩ =
      .error (.nameError "ssl_sock") := rfl

/-- Claim C4 counterexample: at a concrete HTTP probe invocation that
fails with a non-timeout network error, the returned sample set contains
*two* `errors` samples, not the single `errors=1` sample the claim
states (`metrics.Add('errors', 1, start)` runs at line 140 and again at
line 145). -/
theorem http_other_failure_counterexample :
    GatherServerHttpMetrics ("srv", "host") "https" ⟨.urlErrorOther, 0, 0, 0⟩ =
      ⟨[("srv.https.errors", (0, .int 1)), ("srv.https.errors", (0, .int 1))]⟩ ∧
    (GatherServerHttpMetrics ("srv", "host") "https"
        ⟨.urlErrorOther, 0, 0, 0⟩).metrics.length = 2 :=
  ⟨rfl, rfl⟩

/-- Claim C4 (amended): an HTTP probe that fails at the network level
before a response is readable returns immediately without timing
metrics; on a network timeout it records `errors=1` then `timeout=1`,
and on any other network/connection failure it records two `errors=1`
samples (the `errors` sample is added twice, not once). -/
theorem http_network_failure_samples (server : String × String)
    (schema : String) (w : HttpWorld) :
    (w.outcome = .urlErrorTimeout →
      GatherServerHttpMetrics server schema w =
        ⟨[(server.1 ++ "." ++ schema ++ "." ++ "errors", (w.start, .int 1)),
          (server.1 ++ "." ++ schema ++ "." ++ "timeout", (w.start, .int 1))]⟩) ∧
    (w.outcome = .urlErrorOther →
      GatherServerHttpMetrics server schema w =
        ⟨[(server.1 ++ "." ++ schema ++ "." ++ "errors", (w.start, .int 1)),
          (server.1 ++ "." ++ schema ++ "." ++ "errors", (w.start, .int 1))]⟩) := by
  constructor <;> intro hc <;>
    simp only [GatherServerHttpMetrics, hc, Metrics.Add, Metrics.Prefixed,
      joinParts, List.nil_append, List.cons_append, List.map_cons, List.map_nil,
      String.append_empty, strAppend_assoc]

theorem http_network_failure_samples_witness :
    HttpWorld.outcome ⟨.urlErrorTimeout, 5, 0, 0⟩ = .urlErrorTimeout ∧
    GatherServerHttpMetrics ("srv", "host") "http" ⟨.urlErrorTimeout, 5, 0, 0⟩ =
      ⟨[("srv" ++ "." ++ "http" ++ "." ++ "errors", ((5 : ℚ), .int 1)),
        ("srv" ++ "." ++ "http" ++ "." ++ "timeout", ((5 : ℚ), .int 1))]⟩ :=
  ⟨rfl, (http_network_failure_samples ("srv", "host") "http"
    ⟨.urlErrorTimeout, 5, 0, 0⟩).1 rfl⟩

/-- Claim C3 (code bug): when the ping utility exits 0 but its output
lacks the `rtt min/avg/max/mdev = A/B/C/D ms` summary line, the probe
does not return normally with no samples: `re.search` yields `None` and
line 176 calls `.groupdict()` on it, raising an uncaught
`AttributeError` — evaluated here at a concrete failing input. -/
theorem ping_no_summary_raises :
    GatherPingMetrics ("srv", "host")
        ⟨0, "1 packets transmitted, 0 received", 0⟩ =
      .error (.attributeError "groupdict") := rfl

/-- Claim C5 counterexample: at a concrete invocation with exit 0 and
output containing `rtt min/avg/max/mdev = 1.0/2.0/3.0/0.5 ms`, the four
recorded samples carry the *matched substrings as strings* — the value
of `<server>.ping.min` is the string `"1.0"`, which is not a parsed
floating-point number as the claim states (the code never applies
`float` to the groups). -/
theorem ping_string_values_counterexample :
    GatherPingMetrics ("srv", "host")
        ⟨0, "rtt min/avg/max/mdev = 1.0/2.0/3.0/0.5 ms", 0⟩ =
      .ok ⟨[("srv.ping.min", (0, .str "1.0")),
            ("srv.ping.avg", (0, .str "2.0")),
            ("srv.ping.max", (0, .str "3.0")),
            ("srv.ping.mdev", (0, .str "0.5"))]⟩ ∧
    ∀ q : ℚ, Value.str "1.0" ≠ Value.num q := by
  refine ⟨rfl, ?_⟩
  intro q hc
  exact Value.noConfusion hc

/-- Claim C5 (amended): when the ping utility exits 0 and its output
contains a line matching `rtt min/avg/max/mdev = A/B/C/D ms`, the probe
records exactly four samples named `min`, `avg`, `max`, `mdev`, each
prefixed `<server>.ping.`, whose values are the matched substrings
recorded as strings (the code never converts them to floating-point
numbers); recording order follows the `groupdict()` dict iteration,
modelled here in group order. -/
theorem ping_success_samples (server : String × String) (w : PingWorld)
    (ga gb gc gd : String) (h0 : w.exitCode = 0)
    (hm : reSearchRtt w.output.data = some (ga, gb, gc, gd)) :
    GatherPingMetrics server w =
      .ok ⟨[(server.1 ++ "." ++ "ping" ++ "." ++ "min", (w.start, .str ga)),
            (server.1 ++ "." ++ "ping" ++ "." ++ "avg", (w.start, .str gb)),
            (server.1 ++ "." ++ "ping" ++ "." ++ "max", (w.start, .str gc)),
            (server.1 ++ "." ++ "ping" ++ "." ++ "mdev", (w.start, .str gd))]⟩ := by
  simp only [GatherPingMetrics, h0, ne_eq, not_true_eq_false, if_false, hm,
    Metrics.Add, Metrics.Prefixed, joinParts, List.nil_append, List.cons_append,
    List.map_cons, List.map_nil, String.append_empty, strAppend_assoc]

theorem ping_success_samples_witness :
    PingWorld.exitCode ⟨0, "rtt min/avg/max/mdev = 9.1/9.2/9.3/0.1 ms", 3⟩ = 0 ∧
    reSearchRtt ("rtt min/avg/max/mdev = 9.1/9.2/9.3/0.1 ms" : String).data =
      some ("9.1", "9.2", "9.3", "0.1") ∧
    GatherPingMetrics ("srv", "host")
        ⟨0, "rtt min/avg/max/mdev = 9.1/9.2/9.3/0.1 ms", 3⟩ =
      .ok ⟨[("srv" ++ "." ++ "ping" ++ "." ++ "min", ((3 : ℚ), .str "9.1")),
            ("srv" ++ "." ++ "ping" ++ "." ++ "avg", ((3 : ℚ), .str "9.2")),
            ("srv" ++ "." ++ "ping" ++ "." ++ "max", ((3 : ℚ), .str "9.3")),
            ("srv" ++ "." ++ "ping" ++ "." ++ "mdev", ((3 : ℚ), .str "0.1"))]⟩ :=
  ⟨rfl, rfl, ping_success_samples ("srv", "host")
    ⟨0, "rtt min/avg/max/mdev = 9.1/9.2/9.3/0.1 ms", 3⟩
    "9.1" "9.2" "9.3" "0.1" rfl rfl⟩

end Netlog
